import Mathlib

/-!
Shallow embedding of the bounty-marketplace business logic in
`app/dashboard/models.py`: the Bounty status resolver, the valuation
engine for Bounty and Tip, the pre-save denormalization hook
`psave_bounty`, and the Tip payout constructor `Tip.payout_to`.

Modelling conventions:
* Python `Decimal`/`float` values are modelled as exact rationals (`ℚ`);
  `int(x)` truncation toward zero is `pyInt`; `round(x, 2)` is `pyRound2`
  (round half to even, as Python's `round`).
* Timestamps are integers (`ℤ`); "now" is passed explicitly.
* JSON fields that may be absent are `Option` values; Python truthiness of
  an optional integer (`None` and `0` are falsy) is `pyFalsyOptInt`.
* External collaborators (the rate-conversion service, the token registry
  and the chain RPC client) are records of functions; a lookup failure of
  the rate service is `Except.error ()` (the dedicated not-found error).
* Django querysets over related rows are lists carried on the entity; the
  Tip↔Bounty soft join by `(github_url iexact, network)` takes the global
  tip table as an explicit argument.
-/

namespace Dashboard

/-- Python `int(q)` on a real number: truncation toward zero. -/
def pyInt (q : ℚ) : ℤ := if 0 ≤ q then ⌊q⌋ else ⌈q⌉

/-- Python `round(q, 2)`: round to two decimal places, ties to even. -/
def pyRound2 (q : ℚ) : ℚ :=
  let x := q * 100
  let n : ℤ := ⌊x⌋
  let frac : ℚ := x - n
  let r : ℤ :=
    if frac < 1/2 then n
    else if 1/2 < frac then n + 1
    else if n % 2 = 0 then n else n + 1
  (r : ℚ) / 100

/-- Python truthiness of an optional integer: `None` and `0` are falsy. -/
def pyFalsyOptInt : Option ℤ → Bool
  | none => true
  | some n => n = 0

/-- Python `s.lower()` on a string (character-wise ASCII lowercase). -/
def pyLower (s : String) : String := ⟨s.data.map Char.toLower⟩

/-- The rate-conversion service and token registry consumed by the
valuation engine (`economy.utils.convert_amount`,
`economy.utils.convert_token_to_usdt`, `dashboard.tokens.addr_to_token`).
`convert_amount amount from_tok to_tok at_time` and
`convert_token_to_usdt tok at_time` raise the dedicated
not-found error, modelled as `Except.error ()`; `addr_to_token` returns
the registered token's decimals, or `none` for an unknown address. -/
structure RateEnv where
  convert_amount : ℚ → String → String → Option ℤ → Except Unit ℚ
  convert_token_to_usdt : String → Option ℤ → Except Unit ℚ
  addr_to_token : String → Option ℕ

/-- One row related to a Bounty through the `interested` m2m. -/
structure Interest where
  pending : Bool
  created : ℤ
deriving Repr, DecidableEq

/-- One `BountyFulfillment` row related to a Bounty. -/
structure BountyFulfillment where
  accepted : Bool
  accepted_on : Option ℤ
  created_on : ℤ
deriving Repr, DecidableEq

/-- The fields of a `Tip` row used by valuation, the Bounty soft join and
the payout constructor.  `metadata_address` and `metadata_priv_key` are
the `metadata['address']` / `metadata['priv_key']` entries. -/
structure Tip where
  web3_type : String
  tokenName : String
  tokenAddress : String
  amount : ℚ
  txid : String
  receive_txid : String
  github_url : String
  network : String
  metadata_address : String
  metadata_priv_key : String
  username : String
  is_for_bounty_fulfiller : Bool
  created_on : ℤ
deriving Repr, DecidableEq

/-- The fields of a `Bounty` row used by the status resolver, the
valuation engine and the `psave_bounty` pre-save hook.  `pk` is the
truthiness of the primary key (whether the row has been persisted);
`contract_deadline` and `ipfs_deadline` are
`raw_data.get('contract_deadline')` / `raw_data.get('ipfs_deadline')`. -/
structure Bounty where
  web3_type : String
  override_status : String
  idx_status : String
  is_open : Bool
  accepted : Bool
  pk : Bool
  project_type : String
  num_fulfillments : ℤ
  interested : List Interest
  fulfillments : List BountyFulfillment
  github_url : String
  network : String
  expires_date : ℤ
  contract_deadline : Option ℤ
  ipfs_deadline : Option ℤ
  token_name : String
  token_address : String
  value_in_token : ℚ
  web3_created : ℤ
  experience_level : String
  project_length : String
  -- denormalized cache columns written by `psave_bounty`
  value_in_usdt_now : Option ℚ
  value_in_usdt : Option ℚ
  val_usd_db : ℚ
  val_usd_db_now : ℚ
  token_value_in_usdt : Option ℚ
  token_value_time_peg : Option ℤ
  value_in_eth : Option ℚ
  value_true : Option ℚ
  fulfillment_accepted_on : Option ℤ
  fulfillment_submitted_on : Option ℤ
  fulfillment_started_on : Option ℤ
  idx_experience_level : ℤ
  idx_project_length : ℤ
deriving Repr, DecidableEq

namespace Bounty

/-- `Bounty.OPEN_STATUSES`. -/
def OPEN_STATUSES : List String := ["open", "started", "submitted"]

/-- The status values of `Bounty.STATUS_CHOICES`. -/
def STATUS_CHOICES : List String :=
  ["cancelled", "done", "expired", "open", "started", "submitted", "unknown"]

/-- `Bounty.is_legacy`: `self.web3_type == 'legacy_gitcoin'`. -/
def is_legacy (b : Bounty) : Bool := b.web3_type = "legacy_gitcoin"

/-- The only exception the embedded status path can raise: the Python 3
`TypeError` from comparing `None` with an integer. -/
inductive PyErr where
  | typeError
deriving Repr, DecidableEq

/-- `Bounty.can_submit_after_expiration_date`.  Legacy bounties always
may; otherwise a falsy `ipfs_deadline` (absent or `0`) forbids it, and
otherwise the result is `contract_deadline > ipfs_deadline` — which in
Python 3 raises `TypeError` when `contract_deadline` is `None`. -/
def can_submit_after_expiration_date (b : Bounty) : Except PyErr Bool :=
  if is_legacy b then .ok true
  else
    match b.ipfs_deadline with
    | none => .ok false
    | some i =>
      if i = 0 then .ok false
      else
        match b.contract_deadline with
        | none => .error .typeError
        | some c => .ok (decide (c > i))

/-- `Bounty.past_expiration_date`: current time strictly past `expires_date`. -/
def past_expiration_date (now : ℤ) (b : Bounty) : Bool := now > b.expires_date

/-- `Bounty.past_hard_expiration_date`: `past_expiration_date and not
can_submit_after_expiration_date`, with Python's short-circuit (the
eligibility check is only evaluated when past the expiry date). -/
def past_hard_expiration_date (now : ℤ) (b : Bounty) : Except PyErr Bool :=
  if past_expiration_date now b then
    match can_submit_after_expiration_date b with
    | .error e => .error e
    | .ok c => .ok (!c)
  else .ok false

/-- `Bounty.tips`: the soft join of the global tip table by
case-insensitive `github_url` and exact `network`. -/
def tips (allTips : List Tip) (b : Bounty) : List Tip :=
  allTips.filter fun t =>
    pyLower t.github_url = pyLower b.github_url && t.network = b.network

/-- The `has_tips` query inside `Bounty.status`:
`self.tips.filter(is_for_bounty_fulfiller=False).exclude(txid='').exists()`. -/
def has_tips (allTips : List Tip) (b : Bounty) : Bool :=
  (tips allTips b).any fun t => !t.is_for_bounty_fulfiller && t.txid ≠ ""

/-- The body of the `try:` block of `Bounty.status` (the standard-bounties
derivation), with any raised exception surfaced as `Except.error`. -/
def statusCore (allTips : List Tip) (now : ℤ) (b : Bounty) : Except PyErr String :=
  if !b.is_open then
    if b.accepted then .ok "done"
    else
      match past_hard_expiration_date now b with
      | .error e => .error e
      | .ok phe =>
        if phe then .ok "expired"
        else if has_tips allTips b then .ok "done"
        else .ok "cancelled"
  else
    if b.pk && (b.project_type = "contest" || b.project_type = "cooperative") then .ok "open"
    else if b.num_fulfillments = 0 then
      if b.pk && b.interested.any (fun i => !i.pending) then .ok "started"
      else .ok "open"
    else .ok "submitted"

/-- `Bounty.status`: override first, then the legacy cached value, then
the standard-bounties derivation with exceptions degraded to `unknown`. -/
def status (allTips : List Tip) (now : ℤ) (b : Bounty) : String :=
  if b.override_status ≠ "" then b.override_status
  else if is_legacy b then b.idx_status
  else
    match statusCore allTips now b with
    | .ok s => s
    | .error _ => "unknown"

/-- `Bounty.get_natural_value`: raw amount over `10^decimals` from the
token registry; an unregistered address yields `0`. -/
def get_natural_value (env : RateEnv) (b : Bounty) : ℚ :=
  match env.addr_to_token b.token_address with
  | none => 0
  | some decimals => b.value_in_token / 10 ^ decimals

/-- `Bounty.get_value_in_eth`: `value_in_token` for ETH itself, otherwise
a current-rate conversion with any failure degraded to `None`. -/
def get_value_in_eth (env : RateEnv) (b : Bounty) : Option ℚ :=
  if b.token_name = "ETH" then some b.value_in_token
  else
    match env.convert_amount b.value_in_token b.token_name "ETH" none with
    | .ok v => some v
    | .error _ => none

/-- `Bounty.get_value_in_usdt_now`: USDT passes through, DAI is divided
by the fixed `10^18`, any other token goes through the rate service at
the current time (result scaled by the legacy `10^18` divisor and rounded
to cents), with a not-found error degraded to `None`. -/
def get_value_in_usdt_now (env : RateEnv) (b : Bounty) : Option ℚ :=
  if b.token_name = "USDT" then some b.value_in_token
  else if b.token_name = "DAI" then some (b.value_in_token / 10 ^ (18 : ℕ))
  else
    match env.convert_amount b.value_in_token b.token_name "USDT" none with
    | .ok v => some (pyRound2 (v / 10 ^ (18 : ℕ)))
    | .error _ => none

/-- `Bounty.value_in_usdt_then`: the same computation at the historical
rate of the bounty's `web3_created` timestamp. -/
def value_in_usdt_then (env : RateEnv) (b : Bounty) : Option ℚ :=
  if b.token_name = "USDT" then some b.value_in_token
  else if b.token_name = "DAI" then some (b.value_in_token / 10 ^ (18 : ℕ))
  else
    match env.convert_amount b.value_in_token b.token_name "USDT" (some b.web3_created) with
    | .ok v => some (pyRound2 (v / 10 ^ (18 : ℕ)))
    | .error _ => none

/-- `Bounty.get_value_in_usdt`: the cached `value_in_usdt_now` column for
open statuses, the historical value otherwise. -/
def get_value_in_usdt (env : RateEnv) (allTips : List Tip) (now : ℤ) (b : Bounty) : Option ℚ :=
  if status allTips now b ∈ OPEN_STATUSES then b.value_in_usdt_now
  else value_in_usdt_then env b

/-- `Bounty.token_value_in_usdt_now`: current unit price of the token,
rounded to cents, `None` on a not-found error. -/
def token_value_in_usdt_now (env : RateEnv) (b : Bounty) : Option ℚ :=
  match env.convert_token_to_usdt b.token_name none with
  | .ok v => some (pyRound2 v)
  | .error _ => none

/-- `Bounty.token_value_in_usdt_then`: unit price at `web3_created`. -/
def token_value_in_usdt_then (env : RateEnv) (b : Bounty) : Option ℚ :=
  match env.convert_token_to_usdt b.token_name (some b.web3_created) with
  | .ok v => some (pyRound2 v)
  | .error _ => none

/-- `Bounty.get_token_value_in_usdt`: now-price for open statuses,
then-price otherwise. -/
def get_token_value_in_usdt (env : RateEnv) (allTips : List Tip) (now : ℤ) (b : Bounty) :
    Option ℚ :=
  if status allTips now b ∈ OPEN_STATUSES then token_value_in_usdt_now env b
  else token_value_in_usdt_then env b

/-- `Bounty.get_token_value_time_peg`: the current time for open
statuses, `web3_created` otherwise. -/
def get_token_value_time_peg (allTips : List Tip) (now : ℤ) (b : Bounty) : ℤ :=
  if status allTips now b ∈ OPEN_STATUSES then now else b.web3_created

/-- `Bounty.get_fulfillment_accepted_on`: `accepted_on` of the first
accepted fulfillment, `None` when there is none. -/
def get_fulfillment_accepted_on (b : Bounty) : Option ℤ :=
  match (b.fulfillments.filter (·.accepted)).head? with
  | none => none
  | some f => f.accepted_on

/-- `Bounty.get_fulfillment_submitted_on`: `created_on` of the first
fulfillment, `None` when there is none. -/
def get_fulfillment_submitted_on (b : Bounty) : Option ℤ :=
  (b.fulfillments.head?).map (·.created_on)

/-- `Bounty.get_fulfillment_started_on`: `created` of the first related
Interest, `None` when there is none. -/
def get_fulfillment_started_on (b : Bounty) : Option ℤ :=
  (b.interested.head?).map (·.created)

end Bounty

/-- Python `v if v else 0` on an optional number: `None` and `0.0` are
falsy, so a missing value is coerced to `0`. -/
def pyValueOrZero : Option ℚ → ℚ
  | some x => if x = 0 then 0 else x
  | none => 0

/-- The `idx_experience_level` ordinal map of `psave_bounty`
(`dict.get(experience_level, 0)`). -/
def idx_experience_level_of (s : String) : ℤ :=
  if s = "Unknown" then 1
  else if s = "Beginner" then 2
  else if s = "Intermediate" then 3
  else if s = "Advanced" then 4
  else 0

/-- The `idx_project_length` ordinal map of `psave_bounty`
(`dict.get(project_length, 0)`). -/
def idx_project_length_of (s : String) : ℤ :=
  if s = "Unknown" then 1
  else if s = "Hours" then 2
  else if s = "Days" then 3
  else if s = "Weeks" then 4
  else if s = "Months" then 5
  else 0

/-- The `psave_bounty` pre-save hook: recomputes every denormalized
cache column on the instance, in source order (each assignment sees the
fields already updated by the previous ones). -/
def psave_bounty (env : RateEnv) (allTips : List Tip) (now : ℤ) (b : Bounty) : Bounty :=
  let i1 := { b with idx_status := Bounty.status allTips now b }
  let i2 := { i1 with fulfillment_accepted_on := Bounty.get_fulfillment_accepted_on i1 }
  let i3 := { i2 with fulfillment_submitted_on := Bounty.get_fulfillment_submitted_on i2 }
  let i4 := { i3 with fulfillment_started_on := Bounty.get_fulfillment_started_on i3 }
  let i5 := { i4 with val_usd_db := pyValueOrZero (Bounty.get_value_in_usdt env allTips now i4) }
  let i6 := { i5 with val_usd_db_now := pyValueOrZero (Bounty.get_value_in_usdt_now env i5) }
  let i7 := { i6 with idx_experience_level := idx_experience_level_of i6.experience_level }
  let i8 := { i7 with idx_project_length := idx_project_length_of i7.project_length }
  let i9 := { i8 with token_value_time_peg := some (Bounty.get_token_value_time_peg allTips now i8) }
  let i10 := { i9 with token_value_in_usdt := Bounty.get_token_value_in_usdt env allTips now i9 }
  let i11 := { i10 with value_in_usdt_now := Bounty.get_value_in_usdt_now env i10 }
  let i12 := { i11 with value_in_usdt := Bounty.get_value_in_usdt env allTips now i11 }
  let i13 := { i12 with value_in_eth := Bounty.get_value_in_eth env i12 }
  { i13 with value_true := some (Bounty.get_natural_value env i13) }

namespace Tip

/-- `Tip.amount_in_wei`: amount scaled by the registry decimals of the
token address, defaulting to 18 for an unregistered token. -/
def amount_in_wei (env : RateEnv) (t : Tip) : ℚ :=
  let decimals : ℕ :=
    match env.addr_to_token t.tokenAddress with
    | some d => d
    | none => 18
  t.amount * 10 ^ decimals

/-- `Tip.value_in_usdt_now`: USDT and DAI pass the stored amount through
unchanged (no rate-service call); any other token goes through the rate
service at the current time (divided by the local `decimals = 1` and
rounded to cents), a not-found error degrading to `None`. -/
def value_in_usdt_now (env : RateEnv) (t : Tip) : Option ℚ :=
  if t.tokenName = "USDT" ∨ t.tokenName = "DAI" then some t.amount
  else
    match env.convert_amount t.amount t.tokenName "USDT" none with
    | .ok v => some (pyRound2 (v / 1))
    | .error _ => none

/-- `Tip.value_in_usdt_then`: the same at the tip's `created_on` rate. -/
def value_in_usdt_then (env : RateEnv) (t : Tip) : Option ℚ :=
  if t.tokenName = "USDT" ∨ t.tokenName = "DAI" then some t.amount
  else
    match env.convert_amount t.amount t.tokenName "USDT" (some t.created_on) with
    | .ok v => some (pyRound2 (v / 1))
    | .error _ => none

end Tip

/-- The chain RPC client, gas-price recommender and checksum normalizer
consumed by `Tip.payout_to`.  `recommend_min_gas_price` is
`recommend_min_gas_price_to_confirm_in_time(60)` (in gwei);
`estimateGas from_addr to_addr amount` is the ERC20 `transfer` gas
estimate; `sendRawTransaction_hex` is the hex hash the broadcast returns. -/
structure ChainEnv where
  toChecksumAddress : String → String
  recommend_min_gas_price : ℚ
  getTransactionCount : String → ℤ
  getBalance : String → ℤ
  estimateGas : String → String → ℤ → ℤ
  sendRawTransaction_hex : String

/-- One external chain/gas interaction performed by `Tip.payout_to`. -/
inductive ChainCall where
  | recommendGasPrice
  | getNonce
  | getBalance
  | estimateGas
  | broadcast
deriving Repr, DecidableEq

/-- The transaction `Tip.payout_to` builds: either an ERC20
`transfer(to, amount)` contract call or a plain native-value transfer. -/
inductive PyTx where
  | erc20 (contractAddress to_addr : String) (amount nonce gas gasPrice : ℤ)
  | native (nonce gasPrice gas : ℤ) (to_addr : String) (value : ℤ)
deriving Repr, DecidableEq

namespace Tip

/-- `Tip.payout_to(address, amount_override)`: precondition checks first
(each raising a `TipPayoutException` with its reason string before any
chain interaction), then the linear build/sign/broadcast flow.  The
result pairs the outcome with the trace of external chain calls made, in
order; a precondition failure leaves the trace empty. -/
def payout_to (renv : RateEnv) (env : ChainEnv) (tip : Tip) (address : String)
    (amount_override : Option ℤ) : Except String (PyTx × String) × List ChainCall :=
  -- `if not address or address == '0x0': raise TipPayoutException('bad forwarding address')`
  if address = "" ∨ address = "0x0" then (.error "bad forwarding address", [])
  -- `if self.web3_type == 'yge': raise TipPayoutException('bad web3_type')`
  else if tip.web3_type = "yge" then (.error "bad web3_type", [])
  -- `if self.receive_txid: raise TipPayoutException('already received')`
  else if tip.receive_txid ≠ "" then (.error "already received", [])
  else
    let address := env.toChecksumAddress address
    let is_erc20 := pyLower tip.tokenName ≠ "eth"
    -- `amount = int(tip.amount_in_wei) if not amount_override else int(amount_override)`
    let amount : ℤ :=
      match amount_override with
      | none => pyInt (amount_in_wei renv tip)
      | some v => if v = 0 then pyInt (amount_in_wei renv tip) else v
    -- `gasPrice = recommend_min_gas_price_to_confirm_in_time(60) * 10**9`
    let gasPrice : ℚ := env.recommend_min_gas_price * 10 ^ (9 : ℕ)
    let from_address := env.toChecksumAddress tip.metadata_address
    -- `nonce = w3.eth.getTransactionCount(from_address)`
    let nonce := env.getTransactionCount from_address
    if is_erc20 then
      -- `balance = w3.eth.getBalance(from_address)`
      let balance := env.getBalance from_address
      -- `gas = contract.functions.transfer(address, amount).estimateGas(...) + 1`
      let gas := env.estimateGas from_address address amount + 1
      -- `gasPrice = gasPrice if ((gas * gasPrice) < balance) else (balance * 1.0 / gas)`
      let gasPrice := if (gas : ℚ) * gasPrice < (balance : ℚ) then gasPrice
        else (balance : ℚ) / (gas : ℚ)
      let tx := PyTx.erc20 (env.toChecksumAddress tip.tokenAddress) address amount nonce gas
        (pyInt gasPrice)
      (.ok (tx, env.sendRawTransaction_hex),
        [.recommendGasPrice, .getNonce, .getBalance, .estimateGas, .broadcast])
    else
      -- `gas = 100000; amount -= gas * int(gasPrice)`
      let gas : ℤ := 100000
      let amount := amount - gas * pyInt gasPrice
      let tx := PyTx.native nonce (pyInt gasPrice) gas address amount
      (.ok (tx, env.sendRawTransaction_hex), [.recommendGasPrice, .getNonce, .broadcast])

end Tip

/-! ### Concrete instances used by witnesses and counterexamples -/

/-- A rate service whose every lookup raises the not-found error, with an
empty token registry. -/
def failRateEnv : RateEnv where
  convert_amount := fun _ _ _ _ => .error ()
  convert_token_to_usdt := fun _ _ => .error ()
  addr_to_token := fun _ => none

/-- A rate service quoting the constant rate `r` everywhere, with every
token registered at 18 decimals. -/
def constRateEnv (r : ℚ) : RateEnv where
  convert_amount := fun _ _ _ _ => .ok r
  convert_token_to_usdt := fun _ _ => .ok r
  addr_to_token := fun _ => some 18

/-- A concrete chain client for witnesses. -/
def sampleChainEnv : ChainEnv where
  toChecksumAddress := fun a => a
  recommend_min_gas_price := 2
  getTransactionCount := fun _ => 7
  getBalance := fun _ => 10 ^ 18
  estimateGas := fun _ _ _ => 36000
  sendRawTransaction_hex := "0xbroadcasthash"

/-- A concrete standard-bounties Bounty row with no related records. -/
def sampleBounty : Bounty where
  web3_type := "bounties_network"
  override_status := ""
  idx_status := "open"
  is_open := true
  accepted := false
  pk := true
  project_type := "traditional"
  num_fulfillments := 0
  interested := []
  fulfillments := []
  github_url := "https://github.com/org/repo/issues/7"
  network := "mainnet"
  expires_date := 1000
  contract_deadline := some 2000
  ipfs_deadline := some 1000
  token_name := "ETH"
  token_address := "0xeee"
  value_in_token := 3
  web3_created := 5
  experience_level := "Beginner"
  project_length := "Days"
  value_in_usdt_now := some 4
  value_in_usdt := some 4
  val_usd_db := 0
  val_usd_db_now := 0
  token_value_in_usdt := none
  token_value_time_peg := none
  value_in_eth := none
  value_true := none
  fulfillment_accepted_on := none
  fulfillment_submitted_on := none
  fulfillment_started_on := none
  idx_experience_level := 0
  idx_project_length := 0

/-- A concrete funded v2 Tip row with an empty `receive_txid`. -/
def sampleTip : Tip where
  web3_type := "v2"
  tokenName := "ETH"
  tokenAddress := "0xeee"
  amount := 1/1000
  txid := "0xfundingtx"
  receive_txid := ""
  github_url := "https://github.com/org/repo/issues/7"
  network := "mainnet"
  metadata_address := "0xescrowaddr"
  metadata_priv_key := "0xprivkey"
  username := "alice"
  is_for_bounty_fulfiller := false
  created_on := 3

/-- `sampleBounty` closed without acceptance, not yet past expiry. -/
def cancelledBounty : Bounty :=
  { sampleBounty with is_open := false, accepted := false, expires_date := 10 ^ 6 }

/-- A closed DAI bounty: see that its resolved status is terminal. -/
def closedDaiBounty : Bounty :=
  { sampleBounty with
    is_open := false
    accepted := true
    token_name := "DAI"
    value_in_token := 5000000000000000000 }

/-- A Bounty carrying an admin `override_status` outside the enumerated
status values. -/
def overriddenBounty : Bounty :=
  { sampleBounty with override_status := "certified fresh" }

/-- A closed bounty whose token has no quotable rate. -/
def unratedBounty : Bounty :=
  { cancelledBounty with token_name := "OBSCURE" }

/-- A DAI tip storing `2 * 10^18` in its `amount` column. -/
def daiTip : Tip :=
  { sampleTip with tokenName := "DAI", amount := 2000000000000000000 }

/-- A closed, unaccepted, past-expiry bounty whose raw data stores a
truthy `ipfs_deadline` but no `contract_deadline`, so the eligibility
comparison raises in Python 3. -/
def typeErrorBounty : Bounty :=
  { cancelledBounty with
    expires_date := 0
    ipfs_deadline := some 5
    contract_deadline := none }

end Dashboard

/-! ### Helper lemmas -/

namespace Dashboard

theorem statusCore_mem_choices (allTips : List Tip) (now : ℤ) (b : Bounty) (s : String)
    (h : Bounty.statusCore allTips now b = .ok s) : s ∈ Bounty.STATUS_CHOICES := by
  unfold Bounty.statusCore at h
  repeat' split at h
  all_goals simp_all [Bounty.STATUS_CHOICES]

theorem status_mem_choices (allTips : List Tip) (now : ℤ) (b : Bounty)
    (hov : b.override_status = "") (hleg : b.web3_type ≠ "legacy_gitcoin") :
    Bounty.status allTips now b ∈ Bounty.STATUS_CHOICES := by
  have hleg' : Bounty.is_legacy b = false := by
    simp [Bounty.is_legacy, hleg]
  unfold Bounty.status
  rw [hov, hleg']
  simp only [ne_eq, not_true_eq_false, if_false, Bool.false_eq_true]
  rcases hsc : Bounty.statusCore allTips now b with e | t
  · simp [Bounty.STATUS_CHOICES]
  · exact statusCore_mem_choices allTips now b t hsc

end Dashboard

/-! ### Claim theorems -/

namespace Dashboard

/-- C9: for every Bounty with a non-empty `override_status` string, the
resolved status equals that override string verbatim, regardless of every
other field. -/
theorem override_status_verbatim (allTips : List Tip) (now : ℤ) (b : Bounty)
    (h : b.override_status ≠ "") : Bounty.status allTips now b = b.override_status := by
  simp [Bounty.status, h]

/-- Witness for C9: the sample bounty overridden to the free-text status
`certified fresh` resolves to exactly that string. -/
theorem override_status_verbatim_witness :
    overriddenBounty.override_status ≠ "" ∧
    Bounty.status [] 0 overriddenBounty = overriddenBounty.override_status :=
  ⟨by decide, override_status_verbatim [] 0 overriddenBounty (by decide)⟩

/-- Counterexample to C6 as stated: an admin override that is not one of
the seven enumerated statuses is copied verbatim into `idx_status` by the
pre-save hook, so the claimed invariant fails for bounties with a
non-empty `override_status`. -/
theorem idx_status_escapes_enum_counterexample :
    (psave_bounty failRateEnv [] 0 overriddenBounty).idx_status = "certified fresh" ∧
    "certified fresh" ∉ Bounty.STATUS_CHOICES := by
  constructor
  · decide
  · decide

/-- C6 (amended): after a save of a Bounty with empty `override_status`
and a non-legacy `web3_type`, `idx_status` is one of the seven enumerated
status values; a non-empty override is copied verbatim into
`idx_status` and a legacy bounty keeps its previously cached value, so
the invariant holds for those only if the incoming string is itself
enumerated. -/
theorem idx_status_enum_after_save (env : RateEnv) (allTips : List Tip) (now : ℤ) (b : Bounty)
    (hov : b.override_status = "") (hleg : b.web3_type ≠ "legacy_gitcoin") :
    (psave_bounty env allTips now b).idx_status ∈ Bounty.STATUS_CHOICES := by
  have h : (psave_bounty env allTips now b).idx_status = Bounty.status allTips now b := rfl
  rw [h]
  exact status_mem_choices allTips now b hov hleg

/-- Witness for C6 (amended): the sample bounty with no override and a
standard-bounties `web3_type` lands on an enumerated `idx_status`. -/
theorem idx_status_enum_after_save_witness :
    sampleBounty.override_status = "" ∧ sampleBounty.web3_type ≠ "legacy_gitcoin" ∧
    (psave_bounty failRateEnv [] 0 sampleBounty).idx_status ∈ Bounty.STATUS_CHOICES :=
  ⟨rfl, by decide, idx_status_enum_after_save failRateEnv [] 0 sampleBounty rfl (by decide)⟩

/-- C7: legacy bounties may always submit after the expiry date;
non-legacy bounties may not when the raw ingested data has no (falsy)
`ipfs_deadline`, and otherwise may exactly when the stored
`contract_deadline` is strictly greater than the stored `ipfs_deadline`. -/
theorem late_submission_eligibility (b : Bounty) :
    (Bounty.is_legacy b = true → Bounty.can_submit_after_expiration_date b = .ok true)
    ∧ (Bounty.is_legacy b = false → pyFalsyOptInt b.ipfs_deadline = true →
       Bounty.can_submit_after_expiration_date b = .ok false)
    ∧ (∀ c i : ℤ, Bounty.is_legacy b = false → b.contract_deadline = some c →
       b.ipfs_deadline = some i → i ≠ 0 →
       Bounty.can_submit_after_expiration_date b = .ok (decide (c > i))) := by
  refine ⟨fun h => ?_, fun h1 h2 => ?_, fun c i h1 h2 h3 h4 => ?_⟩
  · simp [Bounty.can_submit_after_expiration_date, h]
  · rcases hip : b.ipfs_deadline with _ | n
    · simp [Bounty.can_submit_after_expiration_date, h1, hip]
    · have hn : n = 0 := by simpa [pyFalsyOptInt, hip] using h2
      simp [Bounty.can_submit_after_expiration_date, h1, hip, hn]
  · simp [Bounty.can_submit_after_expiration_date, h1, h2, h3, h4]

/-- Witness for C7: the sample bounty stores `contract_deadline = 2000 >
ipfs_deadline = 1000`, so late submission is allowed. -/
theorem late_submission_eligibility_witness :
    Bounty.is_legacy sampleBounty = false ∧ sampleBounty.contract_deadline = some 2000 ∧
    sampleBounty.ipfs_deadline = some 1000 ∧ (1000 : ℤ) ≠ 0 ∧
    Bounty.can_submit_after_expiration_date sampleBounty = .ok (decide ((2000 : ℤ) > 1000)) :=
  ⟨by decide, rfl, rfl, by decide,
    (late_submission_eligibility sampleBounty).2.2 2000 1000 (by decide) rfl rfl (by decide)⟩

end Dashboard

namespace Dashboard

/-- Counterexample to C1 as stated: a non-legacy closed bounty with
empty `override_status`, not accepted, past its expiry date, whose raw
data stores a truthy `ipfs_deadline` but no `contract_deadline`.  The
eligibility comparison raises, the exception is caught, and the resolved
status is `unknown` — outside the claim's four-outcome cascade (with no
matching tips and `accepted = false` the cascade could only yield
`expired` or `cancelled`). -/
theorem closed_status_typeerror_counterexample :
    typeErrorBounty.override_status = "" ∧ typeErrorBounty.web3_type ≠ "legacy_gitcoin" ∧
    typeErrorBounty.is_open = false ∧ typeErrorBounty.accepted = false ∧
    Bounty.status [] 1 typeErrorBounty = "unknown" ∧
    "unknown" ∉ (["done", "expired", "cancelled"] : List String) :=
  ⟨rfl, by decide, rfl, rfl, by decide, by decide⟩

/-- C1 (amended): for a non-legacy Bounty with empty `override_status`
and `is_open = false`, whenever the late-submission eligibility check
evaluates to a value `c`, the resolved status is `done` if `accepted`;
otherwise `expired` if past the expiry date and not eligible; otherwise
`done` if some matching Tip not directed at the bounty fulfiller has a
non-empty funding `txid`; otherwise `cancelled` — in that precedence
order.  When the eligibility check instead raises (truthy
`ipfs_deadline` without a stored `contract_deadline`) and the bounty is
unaccepted and past its expiry date, the exception is caught and the
resolved status degrades to `unknown`. -/
theorem closed_status_precedence (allTips : List Tip) (now : ℤ) (b : Bounty)
    (hov : b.override_status = "") (hleg : b.web3_type ≠ "legacy_gitcoin")
    (hopen : b.is_open = false) :
    (∀ c : Bool, Bounty.can_submit_after_expiration_date b = .ok c →
      Bounty.status allTips now b =
        if b.accepted then "done"
        else if now > b.expires_date ∧ c = false then "expired"
        else if Bounty.has_tips allTips b then "done"
        else "cancelled")
    ∧ (Bounty.can_submit_after_expiration_date b = .error .typeError →
       b.accepted = false → now > b.expires_date →
       Bounty.status allTips now b = "unknown") := by
  have hleg' : Bounty.is_legacy b = false := by
    simp [Bounty.is_legacy, hleg]
  constructor
  · intro c hc
    rcases hacc : b.accepted with _ | _
    · by_cases hpe : now > b.expires_date
      · rcases c with _ | _
        · simp [Bounty.status, Bounty.statusCore, Bounty.past_hard_expiration_date,
                Bounty.past_expiration_date, hov, hleg', hopen, hacc, hpe, hc]
        · simp only [Bounty.status, Bounty.statusCore, Bounty.past_hard_expiration_date,
                Bounty.past_expiration_date, hov, hleg', hopen, hacc, hpe, hc]
          simp [hpe]
          split_ifs <;> rfl
      · simp only [Bounty.status, Bounty.statusCore, Bounty.past_hard_expiration_date,
              Bounty.past_expiration_date, hov, hleg', hopen, hacc]
        simp [hpe]
        split_ifs <;> rfl
    · simp [Bounty.status, Bounty.statusCore, hov, hleg', hopen, hacc]
  · intro herr hacc hpe
    simp [Bounty.status, Bounty.statusCore, Bounty.past_hard_expiration_date,
          Bounty.past_expiration_date, hov, hleg', hopen, hacc, hpe, herr]

/-- Witness for C1 (amended): the closed accepted sample bounty resolves
through the cascade's first branch, and the bounty with the raising
eligibility check resolves to `unknown`. -/
theorem closed_status_precedence_witness :
    closedDaiBounty.is_open = false ∧
    Bounty.can_submit_after_expiration_date closedDaiBounty = .ok true ∧
    Bounty.status [] 0 closedDaiBounty =
      (if closedDaiBounty.accepted then "done"
       else if (0 : ℤ) > closedDaiBounty.expires_date ∧ true = false then "expired"
       else if Bounty.has_tips [] closedDaiBounty then "done"
       else "cancelled") ∧
    Bounty.can_submit_after_expiration_date typeErrorBounty = .error .typeError ∧
    Bounty.status [] 1 typeErrorBounty = "unknown" :=
  ⟨rfl, rfl,
    (closed_status_precedence [] 0 closedDaiBounty rfl (by decide) rfl).1 true rfl,
    rfl,
    (closed_status_precedence [] 1 typeErrorBounty rfl (by decide) rfl).2 rfl rfl (by decide)⟩

/-- C2: for a non-legacy Bounty with empty `override_status` and
`is_open = true`: a persisted contest/cooperative bounty is `open`
regardless of fulfillments and Interests; otherwise with zero
fulfillments it is `started` when persisted with a non-pending Interest
and `open` otherwise; with a non-zero fulfillment count it is
`submitted`. -/
theorem open_status_precedence (allTips : List Tip) (now : ℤ) (b : Bounty)
    (hov : b.override_status = "") (hleg : b.web3_type ≠ "legacy_gitcoin")
    (hopen : b.is_open = true) :
    Bounty.status allTips now b =
      if b.pk && (b.project_type = "contest" || b.project_type = "cooperative") then "open"
      else if b.num_fulfillments = 0 then
        if b.pk && b.interested.any (fun i => !i.pending) then "started" else "open"
      else "submitted" := by
  have hleg' : Bounty.is_legacy b = false := by
    simp [Bounty.is_legacy, hleg]
  simp [Bounty.status, Bounty.statusCore, hov, hleg', hopen]
  split_ifs <;> rfl

/-- Witness for C2: the open traditional sample bounty with no
fulfillments and no Interests falls through to `open`. -/
theorem open_status_precedence_witness :
    sampleBounty.override_status = "" ∧ sampleBounty.web3_type ≠ "legacy_gitcoin" ∧
    sampleBounty.is_open = true ∧
    Bounty.status [] 0 sampleBounty =
      (if sampleBounty.pk &&
          (sampleBounty.project_type = "contest" || sampleBounty.project_type = "cooperative")
       then "open"
       else if sampleBounty.num_fulfillments = 0 then
         if sampleBounty.pk && sampleBounty.interested.any (fun i => !i.pending) then "started"
         else "open"
       else "submitted") :=
  ⟨rfl, by decide, rfl, open_status_precedence [] 0 sampleBounty rfl (by decide) rfl⟩

end Dashboard

namespace Dashboard

/-- Counterexample to C3 as stated: for a Tip the DAI branch returns the
stored `amount` unchanged — `Tip.value_in_usdt_now` does not divide by
`10^18` (that division is the Bounty-side formula), so an amount of
`2 * 10^18` yields `2 * 10^18`, not `2.0`. -/
theorem tip_dai_scaling_counterexample :
    Tip.value_in_usdt_now failRateEnv daiTip ≠ some 2 ∧
    Tip.value_in_usdt_now failRateEnv daiTip = some 2000000000000000000 := by
  constructor
  · decide
  · decide

/-- C3 (amended): for every Tip with `tokenName = 'DAI'`,
`value_in_usdt_now` returns the stored `amount` unchanged (the Tip
stores whole token units, not `10^18` base units), for any rate service
— so no rate-conversion call can influence the result. -/
theorem tip_dai_value_passthrough (env : RateEnv) (t : Tip) (h : t.tokenName = "DAI") :
    Tip.value_in_usdt_now env t = some t.amount := by
  simp [Tip.value_in_usdt_now, h]

/-- Witness for C3 (amended): the DAI tip with amount `2 * 10^18` keeps
that amount as its USD-now value. -/
theorem tip_dai_value_passthrough_witness :
    daiTip.tokenName = "DAI" ∧
    Tip.value_in_usdt_now failRateEnv daiTip = some daiTip.amount :=
  ⟨rfl, tip_dai_value_passthrough failRateEnv daiTip rfl⟩

/-- Counterexample to C4 as stated: when the rate lookup fails the
valuation is `None`, yet the save path coerces that `None` to `0` into
the `_val_usd_db_now` (and `_val_usd_db`) denormalized columns via
`x if x else 0`. -/
theorem rate_failure_zero_coercion_counterexample :
    Bounty.get_value_in_usdt_now failRateEnv unratedBounty = none ∧
    Bounty.get_value_in_usdt failRateEnv [] 0 unratedBounty = none ∧
    (psave_bounty failRateEnv [] 0 unratedBounty).val_usd_db_now = 0 ∧
    (psave_bounty failRateEnv [] 0 unratedBounty).val_usd_db = 0 := by
  refine ⟨by decide, by decide, by decide, by decide⟩

/-- C4 (amended): for a Bounty whose token is neither USDT nor DAI, a
failing rate lookup surfaces as `None` from the valuation properties
(no exception escapes), and the save path keeps `None` in the
`value_in_usdt_now` and `value_in_usdt` columns — but the `_val_usd_db` /
`_val_usd_db_now` denormalized columns coerce the `None` to `0`. -/
theorem rate_failure_surfaces_none (env : RateEnv) (allTips : List Tip) (now : ℤ) (b : Bounty)
    (h1 : b.token_name ≠ "USDT") (h2 : b.token_name ≠ "DAI")
    (hnow : env.convert_amount b.value_in_token b.token_name "USDT" none = .error ())
    (hthen : env.convert_amount b.value_in_token b.token_name "USDT" (some b.web3_created)
      = .error ()) :
    Bounty.get_value_in_usdt_now env b = none
    ∧ Bounty.value_in_usdt_then env b = none
    ∧ (psave_bounty env allTips now b).value_in_usdt_now = none
    ∧ (psave_bounty env allTips now b).value_in_usdt = none
    ∧ (psave_bounty env allTips now b).val_usd_db_now = 0 := by
  have e1 : Bounty.get_value_in_usdt_now env b = none := by
    simp [Bounty.get_value_in_usdt_now, h1, h2, hnow]
  have e2 : Bounty.value_in_usdt_then env b = none := by
    simp [Bounty.value_in_usdt_then, h1, h2, hthen]
  refine ⟨e1, e2, ?_, ?_, ?_⟩
  · calc (psave_bounty env allTips now b).value_in_usdt_now
        = Bounty.get_value_in_usdt_now env b := rfl
    _ = none := e1
  · have key : ∀ st : String,
        (if st ∈ Bounty.OPEN_STATUSES then Bounty.get_value_in_usdt_now env b
         else Bounty.value_in_usdt_then env b) = none := by
      intro st
      rw [e1, e2, ite_self]
    exact key _
  · have key : pyValueOrZero (Bounty.get_value_in_usdt_now env b) = 0 := by
      rw [e1]
      rfl
    calc (psave_bounty env allTips now b).val_usd_db_now
        = pyValueOrZero (Bounty.get_value_in_usdt_now env b) := rfl
    _ = 0 := key

/-- Witness for C4 (amended): the closed bounty in an unquotable token
with the always-failing rate service. -/
theorem rate_failure_surfaces_none_witness :
    unratedBounty.token_name ≠ "USDT" ∧ unratedBounty.token_name ≠ "DAI" ∧
    Bounty.get_value_in_usdt_now failRateEnv unratedBounty = none ∧
    (psave_bounty failRateEnv [] 0 unratedBounty).value_in_usdt = none ∧
    (psave_bounty failRateEnv [] 0 unratedBounty).val_usd_db_now = 0 :=
  ⟨by decide, by decide,
    (rate_failure_surfaces_none failRateEnv [] 0 unratedBounty (by decide) (by decide) rfl
      rfl).1,
    (rate_failure_surfaces_none failRateEnv [] 0 unratedBounty (by decide) (by decide) rfl
      rfl).2.2.2.1,
    (rate_failure_surfaces_none failRateEnv [] 0 unratedBounty (by decide) (by decide) rfl
      rfl).2.2.2.2⟩

end Dashboard

namespace Dashboard

/-- C8: when the resolved status is open/started/submitted, the USD
valuation is the cached now-value column and the token unit price depends
only on the current rate; when the status is any other (closed) value,
both valuations depend only on the historical rate at the bounty's
`web3_created` timestamp. -/
theorem pricing_epoch_selection (env₁ env₂ : RateEnv) (allTips : List Tip) (now : ℤ)
    (b : Bounty) :
    (Bounty.status allTips now b ∈ Bounty.OPEN_STATUSES →
      Bounty.get_value_in_usdt env₁ allTips now b = b.value_in_usdt_now
      ∧ (env₁.convert_token_to_usdt b.token_name none
          = env₂.convert_token_to_usdt b.token_name none →
         Bounty.get_token_value_in_usdt env₁ allTips now b
          = Bounty.get_token_value_in_usdt env₂ allTips now b))
    ∧ (Bounty.status allTips now b ∉ Bounty.OPEN_STATUSES →
      (env₁.convert_amount b.value_in_token b.token_name "USDT" (some b.web3_created)
         = env₂.convert_amount b.value_in_token b.token_name "USDT" (some b.web3_created) →
       Bounty.get_value_in_usdt env₁ allTips now b = Bounty.get_value_in_usdt env₂ allTips now b)
      ∧ (env₁.convert_token_to_usdt b.token_name (some b.web3_created)
           = env₂.convert_token_to_usdt b.token_name (some b.web3_created) →
         Bounty.get_token_value_in_usdt env₁ allTips now b
          = Bounty.get_token_value_in_usdt env₂ allTips now b)) := by
  constructor
  · intro hopen
    refine ⟨by simp [Bounty.get_value_in_usdt, hopen], fun hagree => ?_⟩
    simp [Bounty.get_token_value_in_usdt, hopen, Bounty.token_value_in_usdt_now, hagree]
  · intro hclosed
    constructor
    · intro hagree
      simp [Bounty.get_value_in_usdt, hclosed, Bounty.value_in_usdt_then, hagree]
    · intro hagree
      simp [Bounty.get_token_value_in_usdt, hclosed, Bounty.token_value_in_usdt_then, hagree]

/-- Witness for C8: the open sample bounty's USD valuation is its cached
now-value even under the always-failing rate service. -/
theorem pricing_epoch_selection_witness :
    Bounty.status [] 0 sampleBounty ∈ Bounty.OPEN_STATUSES ∧
    Bounty.get_value_in_usdt failRateEnv [] 0 sampleBounty = sampleBounty.value_in_usdt_now :=
  ⟨by decide,
    ((pricing_epoch_selection failRateEnv failRateEnv [] 0 sampleBounty).1 (by decide)).1⟩

/-- C5: each `payout_to` precondition is validated before any chain
interaction — an empty or `0x0` destination raises `bad forwarding
address`; otherwise a `yge` `web3_type` raises `bad web3_type`; otherwise
a non-empty `receive_txid` raises `already received` — in every case
with an empty trace of nonce/balance/gas/broadcast calls. -/
theorem payout_precondition_order (renv : RateEnv) (env : ChainEnv) (t : Tip)
    (address : String) (ov : Option ℤ) :
    ((address = "" ∨ address = "0x0") →
      Tip.payout_to renv env t address ov = (.error "bad forwarding address", []))
    ∧ (¬(address = "" ∨ address = "0x0") → t.web3_type = "yge" →
      Tip.payout_to renv env t address ov = (.error "bad web3_type", []))
    ∧ (¬(address = "" ∨ address = "0x0") → t.web3_type ≠ "yge" → t.receive_txid ≠ "" →
      Tip.payout_to renv env t address ov = (.error "already received", [])) := by
  refine ⟨fun h => ?_, fun h1 h2 => ?_, fun h1 h2 h3 => ?_⟩ <;>
    simp [Tip.payout_to, *]

/-- Witness for C5: each of the three precondition faults on concrete
tips, each with an empty chain-call trace. -/
theorem payout_precondition_order_witness :
    Tip.payout_to failRateEnv sampleChainEnv sampleTip "0x0" none
      = (.error "bad forwarding address", [])
    ∧ Tip.payout_to failRateEnv sampleChainEnv { sampleTip with web3_type := "yge" }
        "0xdest" none = (.error "bad web3_type", [])
    ∧ Tip.payout_to failRateEnv sampleChainEnv { sampleTip with receive_txid := "0xr" }
        "0xdest" none = (.error "already received", []) :=
  ⟨(payout_precondition_order failRateEnv sampleChainEnv sampleTip "0x0" none).1 (Or.inr rfl),
   (payout_precondition_order failRateEnv sampleChainEnv { sampleTip with web3_type := "yge" }
      "0xdest" none).2.1 (by decide) rfl,
   (payout_precondition_order failRateEnv sampleChainEnv
      { sampleTip with receive_txid := "0xr" } "0xdest" none).2.2 (by decide) (by decide)
      (by decide)⟩

/-- C10: on the native-currency path (tokenName case-insensitively
`eth`), the built transaction's value is the tip's truncated wei amount
minus the fixed `100000 * gasPrice` fee, with no lower-bound check: when
the wei amount is at most the fee the transaction is still built, with a
zero or negative value, rather than an error being raised. -/
theorem payout_native_fee_no_floor (renv : RateEnv) (env : ChainEnv) (t : Tip)
    (address : String)
    (h1 : ¬(address = "" ∨ address = "0x0")) (h2 : t.web3_type ≠ "yge")
    (h3 : t.receive_txid = "") (heth : pyLower t.tokenName = "eth") :
    (Tip.payout_to renv env t address none).1
      = .ok (PyTx.native (env.getTransactionCount (env.toChecksumAddress t.metadata_address))
          (pyInt (env.recommend_min_gas_price * 10 ^ (9 : ℕ))) 100000
          (env.toChecksumAddress address)
          (pyInt (Tip.amount_in_wei renv t)
            - 100000 * pyInt (env.recommend_min_gas_price * 10 ^ (9 : ℕ))),
          env.sendRawTransaction_hex)
    ∧ (pyInt (Tip.amount_in_wei renv t)
        ≤ 100000 * pyInt (env.recommend_min_gas_price * 10 ^ (9 : ℕ)) →
       pyInt (Tip.amount_in_wei renv t)
        - 100000 * pyInt (env.recommend_min_gas_price * 10 ^ (9 : ℕ)) ≤ 0) := by
  constructor
  · simp [Tip.payout_to, h1, h2, h3, heth]
  · omega

/-- Witness for C10: the native-currency sample tip goes through the
value-transfer branch with the fee subtracted. -/
theorem payout_native_fee_no_floor_witness :
    ¬(("0xdest" : String) = "" ∨ ("0xdest" : String) = "0x0") ∧
    pyLower sampleTip.tokenName = "eth" ∧
    (Tip.payout_to failRateEnv sampleChainEnv sampleTip "0xdest" none).1
      = .ok (PyTx.native
          (sampleChainEnv.getTransactionCount
            (sampleChainEnv.toChecksumAddress sampleTip.metadata_address))
          (pyInt (sampleChainEnv.recommend_min_gas_price * 10 ^ (9 : ℕ))) 100000
          (sampleChainEnv.toChecksumAddress "0xdest")
          (pyInt (Tip.amount_in_wei failRateEnv sampleTip)
            - 100000 * pyInt (sampleChainEnv.recommend_min_gas_price * 10 ^ (9 : ℕ))),
          sampleChainEnv.sendRawTransaction_hex) :=
  ⟨by decide, by decide,
    (payout_native_fee_no_floor failRateEnv sampleChainEnv sampleTip "0xdest" (by decide)
      (by decide) rfl (by decide)).1⟩

end Dashboard
